import Mathlib

/-!
Shallow embedding of the leash-following decision engine from
src/leashYourself.tsx (the LeashYourself plugin). The host stores
(SelectedChannelStore, VoiceStateStore, ChannelStore, PermissionStore,
UserStore) are modelled as a read-only World record; the two voice-state
queries are modelled as Except values so that a host error is an explicit
error result. The observable effects of one invocation (channel actions
and toasts) are collected in an Output value; an uncaught host error is
an error component of the result.
-/

namespace LeashYourself

/-- Toast severity, mirroring Toasts.Type.SUCCESS and Toasts.Type.FAILURE. -/
inductive ToastType where
  | success
  | failure
deriving DecidableEq

/-- Abstract tags for the seven toast messages the plugin can show, one per
Toasts.show call site in src/leashYourself.tsx. -/
inductive ToastMsg where
  | alreadyWithHandler
  | insufficientPermissions
  | channelFull
  | pulledToHandler
  | handlerLeftTookYou
  | leashReleased
  | handlerNotInVoice
deriving DecidableEq

/-- One Toasts.show call: a message tag and a severity. -/
structure Toast where
  message : ToastMsg
  ttype : ToastType
deriving DecidableEq

/-- One call on the ChannelActions surface. -/
inductive ChannelAction where
  | selectVoiceChannel : String → ChannelAction
  | disconnect
deriving DecidableEq

/-- The observable effects of one synchronous run: channel-action calls and
toasts, in program order. -/
structure Output where
  actions : List ChannelAction
  toasts : List Toast
deriving DecidableEq

/-- Result of ChannelStore.getChannel: the channel type tag (1 is a
one-to-one DM call channel) and the user limit (0 means unlimited). -/
structure Channel where
  type : Nat
  userLimit : Nat
deriving DecidableEq

/-- The plugin settings store, with exactly the keys declared in
definePluginSettings. handlerUserId empty means no handler is set. -/
structure Settings where
  pullOnLeashSet : Bool
  onlyManualTrigger : Bool
  leashReleaseOnLeave : Bool
  autoPullBack : Bool
  handlerUserId : String
  waitForSpace : Bool
deriving DecidableEq

/-- The defaults declared in definePluginSettings. -/
def defaultSettings : Settings :=
  { pullOnLeashSet := true
    onlyManualTrigger := false
    leashReleaseOnLeave := false
    autoPullBack := false
    handlerUserId := ""
    waitForSpace := true }

/-- The VOICE_STATE_UPDATES handler reads settings.store.autoMoveBack, a key
that definePluginSettings never declares (the declared toggle is
autoPullBack), so the property lookup yields undefined, which is falsy. -/
def Settings.autoMoveBack (_ : Settings) : Bool := false

/-- One element of a VOICE_STATE_UPDATES batch, restricted to the fields the
handler reads. channelId and oldChannelId are nullable. -/
structure VoiceEvent where
  userId : String
  channelId : Option String
  oldChannelId : Option String
deriving DecidableEq

/-- The read-only host environment for one synchronous run.
allVoiceStates models VoiceStateStore.getAllVoiceStates as a list of
(guildIdOrMe, member map) pairs where a member map is a list of
(userId, optional channelId); voiceStatesForChannel models
VoiceStateStore.getVoiceStatesForChannel as a possibly-absent member list of
(key userId, value userId) pairs, since the code counts the keys and maps
the values to their userId field. Both queries can fail with a host error,
modelled as an Except error. can models PermissionStore.can for a
permission bit on the channel with the given id (the code always passes the
channel object obtained from that id). -/
structure World where
  currentUserId : String
  selectedVoiceChannelId : Option String
  allVoiceStates : Except Unit (List (String × List (String × Option String)))
  voiceStatesForChannel : String → Except Unit (Option (List (String × String)))
  getChannel : String → Channel
  can : Nat → String → Bool

/-- Effects of one run together with whether an uncaught host error escaped. -/
abbrev PullResult := Output × Except Unit Unit

/-- Empty effect list. -/
def noEffects : Output := ⟨[], []⟩

/-- A run that completed normally with the given effects. -/
def pureOk (o : Output) : PullResult := (o, Except.ok ())

/-- JavaScript truthiness of a nullable string: null/undefined and the empty
string are falsy. -/
def truthy : Option String → Bool
  | none => false
  | some s => !(s == "")

/-- Bit used as PermissionsBits.CONNECT (declared as 1n << 20n in the code). -/
def CONNECT : Nat := 2 ^ 20

/-- Bit used as PermissionsBits.MOVE_MEMBERS (1n << 24n). -/
def MOVE_MEMBERS : Nat := 2 ^ 24

/-- Association lookup in one member map, mirroring the users[userId]
access in getChannelId (a present voice-state object is always truthy). -/
def lookupUser : List (String × Option String) → String → Option (Option String)
  | [], _ => none
  | (u, ch) :: rest, uid => if u == uid then some ch else lookupUser rest uid

/-- Scan of the per-guild maps in order, mirroring the for loop of
getChannelId: the first map containing the user decides the answer, and a
present entry with a null channelId yields null and stops the scan. -/
def findUserChannel : List (String × List (String × Option String)) → String → Option String
  | [], _ => none
  | (_, users) :: rest, uid =>
    match lookupUser users uid with
    | some ch => ch
    | none => findUserChannel rest uid

/-- Embedding of getChannelId: empty userId short-circuits to null, and any
host error from getAllVoiceStates is caught and turned into null. -/
def getChannelId (w : World) (userId : String) : Option String :=
  if userId == "" then none
  else
    match w.allVoiceStates with
    | Except.error _ => none
    | Except.ok states => findUserChannel states userId

/-- Embedding of the two trailing else branches of triggerLeashPull, reached
when targetChannelId is falsy: disconnect or notify depending on
leashReleaseOnLeave when the acting user is in a channel, otherwise the
handler-not-in-voice toast. -/
def noTargetBranch (w : World) (s : Settings) : PullResult :=
  if truthy w.selectedVoiceChannelId then
    if s.leashReleaseOnLeave then
      pureOk ⟨[ChannelAction.disconnect], [⟨ToastMsg.handlerLeftTookYou, ToastType.success⟩]⟩
    else
      pureOk ⟨[], [⟨ToastMsg.leashReleased, ToastType.failure⟩]⟩
  else
    pureOk ⟨[], [⟨ToastMsg.handlerNotInVoice, ToastType.failure⟩]⟩

/-- Embedding of the body of triggerLeashPull after the default argument has
been resolved. The getVoiceStatesForChannel query is issued before the
permission test, outside any try/catch, so its failure aborts the run with
no effects. memberCount is null exactly when the query returned a falsy
member map, and a null memberCount skips the capacity test. -/
def triggerLeashPullWith (w : World) (s : Settings) (targetChannelId : Option String) : PullResult :=
  if s.handlerUserId == "" then pureOk noEffects
  else
    match targetChannelId with
    | some target =>
      if target == "" then noTargetBranch w s
      else if some target == w.selectedVoiceChannelId then
        pureOk ⟨[], [⟨ToastMsg.alreadyWithHandler, ToastType.failure⟩]⟩
      else
        match w.voiceStatesForChannel target with
        | Except.error err => (noEffects, Except.error err)
        | Except.ok voiceStates =>
          if (w.getChannel target).type == 1 || w.can CONNECT target then
            if (w.getChannel target).userLimit != 0
                && (match voiceStates with
                    | some cvs => decide ((w.getChannel target).userLimit ≤ cvs.length)
                    | none => false)
                && !(w.can MOVE_MEMBERS target) then
              pureOk ⟨[], [⟨ToastMsg.channelFull, ToastType.failure⟩]⟩
            else
              pureOk ⟨[ChannelAction.selectVoiceChannel target],
                      [⟨ToastMsg.pulledToHandler, ToastType.success⟩]⟩
          else
            pureOk ⟨[], [⟨ToastMsg.insufficientPermissions, ToastType.failure⟩]⟩
    | none => noTargetBranch w s

/-- Embedding of triggerLeashPull. The argument distinguishes the three call
shapes in the source: none is a call with no argument, which resolves the
default getChannelId(settings.store.handlerUserId); some none passes an
explicit null; some (some c) passes an explicit channel id. -/
def triggerLeashPull (w : World) (s : Settings) (arg : Option (Option String)) : PullResult :=
  triggerLeashPullWith w s
    (match arg with
     | none => getChannelId w s.handlerUserId
     | some t => t)

/-- The settings transition of triggerLeashPull paired with its effects: the
source body reads the settings store but contains no assignment to it, so
the transition is the identity on the settings. -/
def triggerLeashPullStep (w : World) (s : Settings) (arg : Option (Option String)) :
    Settings × PullResult :=
  (s, triggerLeashPull w s arg)

/-- Embedding of toggleLeash: clear the handler when it already equals the
given user, otherwise set it and, when pullOnLeashSet is enabled, invoke
triggerLeashPull with no argument against the updated settings. -/
def toggleLeash (w : World) (s : Settings) (userId : String) : Settings × PullResult :=
  if s.handlerUserId == userId then
    ({ s with handlerUserId := "" }, pureOk noEffects)
  else
    let s2 : Settings := { s with handlerUserId := userId }
    if s2.pullOnLeashSet then (s2, triggerLeashPull w s2 none)
    else (s2, pureOk noEffects)

/-- Embedding of the handler-left tail of the event loop body: when the
event subject is the leashed handler, a present new channel id pulls toward
it, otherwise a present old channel id pulls with an explicit null target. -/
def leashTailLeave (w : World) (s : Settings) (e : VoiceEvent) : PullResult :=
  if truthy e.oldChannelId then triggerLeashPull w s (some none)
  else pureOk noEffects

/-- Embedding of the final section of the loop body of VOICE_STATE_UPDATES:
events whose subject is not the handler are ignored; for the handler, a
truthy channelId triggers a pull toward it and otherwise a truthy
oldChannelId triggers a pull with an explicit null target. -/
def leashTail (w : World) (s : Settings) (e : VoiceEvent) : PullResult :=
  if s.handlerUserId == e.userId then
    match e.channelId with
    | some ch => if ch == "" then leashTailLeave w s e else triggerLeashPull w s (some (some ch))
    | none => leashTailLeave w s e
  else pureOk noEffects

/-- Embedding of one iteration of the VOICE_STATE_UPDATES loop body: skip
no-op transitions; the autoMoveBack branch (which reads the undeclared
settings key); the waitForSpace branch, whose getVoiceStatesForChannel
query is outside any try/catch; and the leashed-handler tail. A continue in
the source corresponds to returning without falling through to leashTail. -/
def processVoiceEvent (w : World) (s : Settings) (e : VoiceEvent) : PullResult :=
  if e.channelId == e.oldChannelId then pureOk noEffects
  else if s.autoMoveBack && (e.userId == w.currentUserId)
        && truthy e.channelId && truthy e.oldChannelId then
    triggerLeashPull w s none
  else if s.waitForSpace && !(e.userId == w.currentUserId)
        && !(truthy e.channelId) && truthy e.oldChannelId
        && !(e.oldChannelId == w.selectedVoiceChannelId) then
    match e.oldChannelId with
    | some oldCh =>
      match w.voiceStatesForChannel oldCh with
      | Except.error err => (noEffects, Except.error err)
      | Except.ok none => leashTail w s e
      | Except.ok (some cvs) =>
        if (w.getChannel oldCh).userLimit != 0
            && cvs.length == (w.getChannel oldCh).userLimit - 1
            && !(w.can MOVE_MEMBERS oldCh) then
          if (cvs.map Prod.snd).contains s.handlerUserId then
            triggerLeashPull w s (some (some oldCh))
          else leashTail w s e
        else leashTail w s e
    | none => leashTail w s e
  else leashTail w s e

/-- Sequencing of the loop over a batch: effects accumulate in order and an
uncaught host error aborts the remainder of the batch. -/
def runEvents (w : World) (s : Settings) : List VoiceEvent → PullResult
  | [] => pureOk noEffects
  | e :: rest =>
    match processVoiceEvent w s e with
    | (out, Except.error err) => (out, Except.error err)
    | (out, Except.ok ()) =>
      let r := runEvents w s rest
      (⟨out.actions ++ r.1.actions, out.toasts ++ r.1.toasts⟩, r.2)

/-- Embedding of the VOICE_STATE_UPDATES flux handler: the whole batch is
skipped when onlyManualTrigger is set or no handler is set. -/
def onVoiceStateUpdates (w : World) (s : Settings) (events : List VoiceEvent) : PullResult :=
  if s.onlyManualTrigger || s.handlerUserId == "" then pureOk noEffects
  else runEvents w s events

/-! Concrete host environments and settings used by counterexamples and
witnesses. -/

/-- Settings with a handler set and every toggle at its declared default. -/
def sH : Settings := { defaultSettings with handlerUserId := "H" }

/-- Host environment where the handler H sits in channel T, every channel is
a one-to-one call channel with no user limit, and both voice-state queries
succeed. -/
def wC1 : World :=
  { currentUserId := "me"
    selectedVoiceChannelId := some "B"
    allVoiceStates := Except.ok [("g", [("H", some "T")])]
    voiceStatesForChannel := fun _ => Except.ok (some [])
    getChannel := fun _ => ⟨1, 0⟩
    can := fun _ _ => true }

/-- Settings with a handler set and the autoPullBack toggle enabled. -/
def sC1 : Settings := { sH with autoPullBack := true }

/-- The acting user is moved from real channel A to real channel B. -/
def eC1 : VoiceEvent := ⟨"me", some "B", some "A"⟩

/-- Host environment with the acting user parked in channel Z, all channels
one-to-one calls with no limit, and succeeding queries. -/
def wC2 : World :=
  { currentUserId := "me"
    selectedVoiceChannelId := some "Z"
    allVoiceStates := Except.ok []
    voiceStatesForChannel := fun _ => Except.ok (some [])
    getChannel := fun _ => ⟨1, 0⟩
    can := fun _ _ => true }

/-- A batch in which the handler moves twice: A to B, then B to C. -/
def evsC2 : List VoiceEvent := [⟨"H", some "B", some "A"⟩, ⟨"H", some "C", some "B"⟩]

/-- Host environment in which nobody is in voice and all queries succeed with
empty results. -/
def wQuiet : World :=
  { currentUserId := "me"
    selectedVoiceChannelId := none
    allVoiceStates := Except.ok []
    voiceStatesForChannel := fun _ => Except.ok none
    getChannel := fun _ => ⟨0, 0⟩
    can := fun _ _ => false }

/-- Settings with handler A set and every toggle at its declared default. -/
def sA : Settings := { defaultSettings with handlerUserId := "A" }

/-! C1. The event handler never honors the autoPullBack toggle: it reads the
undeclared settings key autoMoveBack instead, which is always falsy. -/

/-- C1: with autoPullBack enabled and the acting user moved between two real
channels, the batch handler performs no action and shows no toast, even
though an immediate pull toward the handler (the behavior the claim and the
settings declaration describe) would have joined channel T. -/
theorem C1_autoPullBack_ignored :
    sC1.autoPullBack = true ∧
    onVoiceStateUpdates wC1 sC1 [eC1] = pureOk noEffects ∧
    triggerLeashPull wC1 sC1 none =
      pureOk ⟨[ChannelAction.selectVoiceChannel "T"],
              [⟨ToastMsg.pulledToHandler, ToastType.success⟩]⟩ :=
  ⟨rfl, rfl, rfl⟩

/-! C2. The batch handler can issue one channel action per matching event,
not one per batch. -/

/-- C2 counterexample: a batch of two handler moves produces two
selectVoiceChannel calls, refuting the at-most-one-action-per-batch claim. -/
theorem C2_counterexample :
    ¬ (onVoiceStateUpdates wC2 sH evsC2).1.actions.length ≤ 1 := by decide

/-- Helper: the no-target tail of the pull procedure performs at most one
channel action. -/
theorem noTargetBranch_actions_le_one (w : World) (s : Settings) :
    (noTargetBranch w s).1.actions.length ≤ 1 := by
  unfold noTargetBranch
  repeat' split
  all_goals decide

/-- Helper: one invocation of the pull decision procedure performs at most
one channel action. -/
theorem pullWith_actions_le_one (w : World) (s : Settings) (t : Option String) :
    (triggerLeashPullWith w s t).1.actions.length ≤ 1 := by
  unfold triggerLeashPullWith
  repeat' split
  all_goals first
    | exact noTargetBranch_actions_le_one w s
    | decide
    | simp [pureOk, noEffects]

/-- Helper: the argument-resolving wrapper keeps the one-action bound. -/
theorem pull_actions_le_one (w : World) (s : Settings) (arg : Option (Option String)) :
    (triggerLeashPull w s arg).1.actions.length ≤ 1 := by
  unfold triggerLeashPull
  exact pullWith_actions_le_one w s _

/-- Helper: the handler-left tail performs at most one channel action. -/
theorem leashTailLeave_actions_le_one (w : World) (s : Settings) (e : VoiceEvent) :
    (leashTailLeave w s e).1.actions.length ≤ 1 := by
  unfold leashTailLeave
  split
  · exact pull_actions_le_one w s _
  · decide

/-- Helper: the leashed-handler tail performs at most one channel action. -/
theorem leashTail_actions_le_one (w : World) (s : Settings) (e : VoiceEvent) :
    (leashTail w s e).1.actions.length ≤ 1 := by
  unfold leashTail
  repeat' split
  all_goals first
    | exact leashTailLeave_actions_le_one w s e
    | exact pull_actions_le_one w s _
    | decide

/-- Helper: one iteration of the event loop performs at most one channel
action. -/
theorem processVoiceEvent_actions_le_one (w : World) (s : Settings) (e : VoiceEvent) :
    (processVoiceEvent w s e).1.actions.length ≤ 1 := by
  unfold processVoiceEvent
  repeat' split
  all_goals first
    | exact leashTail_actions_le_one w s e
    | exact pull_actions_le_one w s _
    | decide
    | simp [pureOk, noEffects]

/-- Helper: a batch of n events performs at most n channel actions. -/
theorem runEvents_actions_le_length (w : World) (s : Settings) (evs : List VoiceEvent) :
    (runEvents w s evs).1.actions.length ≤ evs.length := by
  induction evs with
  | nil => simp [runEvents, pureOk, noEffects]
  | cons e rest ih =>
    have hle := processVoiceEvent_actions_le_one w s e
    unfold runEvents
    rcases hproc : processVoiceEvent w s e with ⟨out, r⟩
    rw [hproc] at hle
    rcases r with err | u
    · simpa using Nat.le_trans hle (by omega)
    · rcases u
      simp only [List.length_append, List.length_cons]
      simp only at hle
      omega

/-- C2 amended: across one delivered batch, the handler performs at most one
channel-action call per event, hence at most as many actions as events. -/
theorem C2_at_most_one_action_per_event (w : World) (s : Settings) (events : List VoiceEvent) :
    (onVoiceStateUpdates w s events).1.actions.length ≤ events.length := by
  unfold onVoiceStateUpdates
  split
  · simp [pureOk, noEffects]
  · exact runEvents_actions_le_length w s events

/-! C3. The toggleLeash round trip restores the handler only from the
already-leashed or unleashed states; starting from a different handler it
ends cleared. -/

/-- C3 counterexample: with handler A set, calling toggleLeash twice with B
leaves the handler cleared, not restored to A. -/
theorem C3_counterexample :
    (toggleLeash wQuiet (toggleLeash wQuiet sA "B").1 "B").1.handlerUserId ≠
      sA.handlerUserId := by decide

/-- Helper: the settings component of toggleLeash does not depend on the
pull that a freshly set leash may trigger. -/
theorem toggleLeash_fst (w : World) (s : Settings) (userId : String) :
    (toggleLeash w s userId).1 =
      if s.handlerUserId == userId then { s with handlerUserId := "" }
      else { s with handlerUserId := userId } := by
  unfold toggleLeash
  split
  · rfl
  · dsimp only
    split <;> rfl

/-- C3 amended: two successive toggleLeash calls with the same user restore
handlerUserId whenever the initial handler was that user or was empty. -/
theorem C3_roundtrip_restores_when_same_or_empty (w : World) (s : Settings) (x : String)
    (h : s.handlerUserId = x ∨ s.handlerUserId = "") :
    (toggleLeash w (toggleLeash w s x).1 x).1.handlerUserId = s.handlerUserId := by
  rcases h with h | h
  · by_cases hx : x = ""
    · simp [toggleLeash_fst, h, hx]
    · simp [toggleLeash_fst, h, hx, Ne.symm hx]
  · by_cases hx : x = ""
    · simp [toggleLeash_fst, h, hx]
    · simp [toggleLeash_fst, h, hx, Ne.symm hx]

/-- C3 witness: the round trip at handler H with user H restores the
handler. -/
theorem C3_roundtrip_witness :
    (toggleLeash wQuiet (toggleLeash wQuiet sH "H").1 "H").1.handlerUserId =
      sH.handlerUserId :=
  C3_roundtrip_restores_when_same_or_empty wQuiet sH "H" (Or.inl rfl)

/-! C4. The CONNECT permission gate and its one-to-one-call bypass. -/

/-- C4: when the resolved target differs from the current channel, a
non-one-to-one channel without the CONNECT capability yields no channel
action and exactly one insufficient-permissions toast; and on a one-to-one
channel the gate is bypassed even without CONNECT, so the run ends in the
capacity toast or the join, never the insufficient-permissions toast. -/
theorem C4_connect_permission_gate :
    (∀ (w : World) (s : Settings) (t : String) (vs : Option (List (String × String))),
      s.handlerUserId ≠ "" → t ≠ "" → some t ≠ w.selectedVoiceChannelId →
      (w.getChannel t).type ≠ 1 → w.can CONNECT t = false →
      w.voiceStatesForChannel t = Except.ok vs →
      triggerLeashPullWith w s (some t) =
        pureOk ⟨[], [⟨ToastMsg.insufficientPermissions, ToastType.failure⟩]⟩) ∧
    (∀ (w : World) (s : Settings) (t : String) (vs : Option (List (String × String))),
      s.handlerUserId ≠ "" → t ≠ "" → some t ≠ w.selectedVoiceChannelId →
      (w.getChannel t).type = 1 → w.can CONNECT t = false →
      w.voiceStatesForChannel t = Except.ok vs →
      triggerLeashPullWith w s (some t) =
          pureOk ⟨[], [⟨ToastMsg.channelFull, ToastType.failure⟩]⟩ ∨
        triggerLeashPullWith w s (some t) =
          pureOk ⟨[ChannelAction.selectVoiceChannel t],
                  [⟨ToastMsg.pulledToHandler, ToastType.success⟩]⟩) := by
  constructor
  · intro w s t vs hhandler ht hdiff htype hconn hvs
    unfold triggerLeashPullWith
    simp [hhandler, ht, hdiff, htype, hconn, hvs]
  · intro w s t vs hhandler ht hdiff htype hconn hvs
    rcases vs with _ | cvs
    · right
      unfold triggerLeashPullWith
      simp [hhandler, ht, hdiff, htype, hvs]
    · by_cases hfull : ((w.getChannel t).userLimit != 0
          && decide ((w.getChannel t).userLimit ≤ cvs.length)
          && !(w.can MOVE_MEMBERS t)) = true
      · left
        unfold triggerLeashPullWith
        simp only [hvs]
        simp [hhandler, ht, hdiff, htype, hfull]
      · right
        unfold triggerLeashPullWith
        simp only [hvs]
        simp [hhandler, ht, hdiff, htype, hfull]

/-- Host environment where every channel is an ordinary voice channel and the
acting user holds no capabilities, parked in channel D. -/
def wPerm : World :=
  { currentUserId := "me"
    selectedVoiceChannelId := some "D"
    allVoiceStates := Except.ok []
    voiceStatesForChannel := fun _ => Except.ok (some [])
    getChannel := fun _ => ⟨2, 0⟩
    can := fun _ _ => false }

/-- Variant of wPerm where every channel is a one-to-one call channel. -/
def wDM : World := { wPerm with getChannel := fun _ => ⟨1, 0⟩ }

/-- C4 witness: both halves of the permission-gate theorem instantiated at
target channel T. -/
theorem C4_witness :
    triggerLeashPullWith wPerm sH (some "T") =
        pureOk ⟨[], [⟨ToastMsg.insufficientPermissions, ToastType.failure⟩]⟩ ∧
      (triggerLeashPullWith wDM sH (some "T") =
          pureOk ⟨[], [⟨ToastMsg.channelFull, ToastType.failure⟩]⟩ ∨
        triggerLeashPullWith wDM sH (some "T") =
          pureOk ⟨[ChannelAction.selectVoiceChannel "T"],
                  [⟨ToastMsg.pulledToHandler, ToastType.success⟩]⟩) :=
  ⟨C4_connect_permission_gate.1 wPerm sH "T" (some [])
      (by decide) (by decide) (by decide) (by decide) rfl rfl,
   C4_connect_permission_gate.2 wDM sH "T" (some [])
      (by decide) (by decide) (by decide) rfl rfl rfl⟩

/-! C5. A full channel without the move-members override blocks the join. -/

/-- C5: on a permitted target with a nonzero user limit, a known member
count at or above the limit, and no move-members override, the run performs
no channel action and shows exactly one channel-full toast. -/
theorem C5_channel_full_blocks_join (w : World) (s : Settings) (t : String)
    (l : List (String × String))
    (hhandler : s.handlerUserId ≠ "") (ht : t ≠ "")
    (hdiff : some t ≠ w.selectedVoiceChannelId)
    (hperm : (w.getChannel t).type = 1 ∨ w.can CONNECT t = true)
    (hvs : w.voiceStatesForChannel t = Except.ok (some l))
    (hlimit : (w.getChannel t).userLimit ≠ 0)
    (hfull : (w.getChannel t).userLimit ≤ l.length)
    (hover : w.can MOVE_MEMBERS t = false) :
    triggerLeashPullWith w s (some t) =
      pureOk ⟨[], [⟨ToastMsg.channelFull, ToastType.failure⟩]⟩ := by
  unfold triggerLeashPullWith
  rcases hperm with hperm | hperm <;>
    simp [hhandler, ht, hdiff, hvs, hlimit, hfull, hover, hperm]

/-- Host environment with an ordinary channel of limit two holding two
members, where the acting user may connect but not move members. -/
def wFull : World :=
  { currentUserId := "me"
    selectedVoiceChannelId := none
    allVoiceStates := Except.ok []
    voiceStatesForChannel := fun _ => Except.ok (some [("a", "a"), ("b", "b")])
    getChannel := fun _ => ⟨2, 2⟩
    can := fun p _ => p == CONNECT }

/-- C5 witness: the full-channel theorem instantiated at target T with two
members against limit two. -/
theorem C5_witness :
    triggerLeashPullWith wFull sH (some "T") =
      pureOk ⟨[], [⟨ToastMsg.channelFull, ToastType.failure⟩]⟩ :=
  C5_channel_full_blocks_join wFull sH "T" [("a", "a"), ("b", "b")]
    (by decide) (by decide) (by decide) (Or.inr rfl) rfl
    (by decide) (by decide) (by decide)

/-! C6. Handler absent while the acting user is in voice: the
leashReleaseOnLeave policy decides between a disconnect and a notification
only. -/

/-- C6: with a handler set, no resolved target, and the acting user in a
voice channel, the run disconnects with one toast when leashReleaseOnLeave
is enabled, and otherwise performs no action and shows one toast. -/
theorem C6_handler_absent_release_policy (w : World) (s : Settings)
    (hhandler : s.handlerUserId ≠ "")
    (hin : truthy w.selectedVoiceChannelId = true) :
    triggerLeashPullWith w s none =
      if s.leashReleaseOnLeave then
        pureOk ⟨[ChannelAction.disconnect], [⟨ToastMsg.handlerLeftTookYou, ToastType.success⟩]⟩
      else
        pureOk ⟨[], [⟨ToastMsg.leashReleased, ToastType.failure⟩]⟩ := by
  unfold triggerLeashPullWith noTargetBranch
  simp [hhandler, hin]

/-- C6 witness: the release-policy theorem instantiated with the acting user
parked in channel D and the default release toggle. -/
theorem C6_witness :
    triggerLeashPullWith wPerm sH none =
      if sH.leashReleaseOnLeave then
        pureOk ⟨[ChannelAction.disconnect], [⟨ToastMsg.handlerLeftTookYou, ToastType.success⟩]⟩
      else
        pureOk ⟨[], [⟨ToastMsg.leashReleased, ToastType.failure⟩]⟩ :=
  C6_handler_absent_release_policy wPerm sH (by decide) (by decide)

/-! C7. A departure that frees the one missing slot of a watched channel
containing the handler re-triggers a pull toward that channel. -/

/-- Helper: when the member query for the target succeeds, the pull decision
procedure completes without an uncaught host error. -/
theorem pullWith_ok_of_query_ok (w : World) (s : Settings) (t : String)
    (vs : Option (List (String × String)))
    (hvs : w.voiceStatesForChannel t = Except.ok vs) :
    (triggerLeashPullWith w s (some t)).2 = Except.ok () := by
  unfold triggerLeashPullWith noTargetBranch
  repeat' split
  all_goals simp_all [pureOk, noEffects]

/-- C7: when another user vacates a watched channel, leaving it one below
its nonzero limit with the handler among the remaining members, and the
acting user is elsewhere without the move-members override, processing that
event is exactly a re-triggered pull targeting the vacated channel. -/
theorem C7_wait_for_space_retriggers_pull (w : World) (s : Settings) (e : VoiceEvent)
    (c : String) (l : List (String × String))
    (hman : s.onlyManualTrigger = false)
    (hhandler : s.handlerUserId ≠ "")
    (hother : e.userId ≠ w.currentUserId)
    (hwait : s.waitForSpace = true)
    (hnew : e.channelId = none)
    (hold : e.oldChannelId = some c)
    (hc : c ≠ "")
    (hnotin : some c ≠ w.selectedVoiceChannelId)
    (hvs : w.voiceStatesForChannel c = Except.ok (some l))
    (hlimit : (w.getChannel c).userLimit ≠ 0)
    (hcount : l.length = (w.getChannel c).userLimit - 1)
    (hover : w.can MOVE_MEMBERS c = false)
    (hmem : (l.map Prod.snd).contains s.handlerUserId = true) :
    onVoiceStateUpdates w s [e] = triggerLeashPull w s (some (some c)) := by
  have hmem2 : s.handlerUserId ∈ List.map Prod.snd l := by
    simpa using hmem
  have hproc : processVoiceEvent w s e = triggerLeashPull w s (some (some c)) := by
    unfold processVoiceEvent
    simp [hnew, hold, hother, hwait, hc, hnotin, hvs, hlimit, hcount, hover, hmem2,
      Settings.autoMoveBack, truthy]
  have hok : (triggerLeashPull w s (some (some c))).2 = Except.ok () := by
    unfold triggerLeashPull
    exact pullWith_ok_of_query_ok w s c (some l) hvs
  unfold onVoiceStateUpdates
  simp only [hman, Bool.false_or]
  rw [if_neg (by simp [hhandler])]
  unfold runEvents
  rw [hproc]
  rcases hres : triggerLeashPull w s (some (some c)) with ⟨out, r⟩
  rw [hres] at hok
  simp only at hok
  subst hok
  simp [runEvents, pureOk, noEffects]

/-- Host environment for the wait-for-space scenario: the handler H is the
single remaining member of channel E, whose limit is two; the acting user is
not in voice and may connect but not move members. -/
def wC7 : World :=
  { currentUserId := "me"
    selectedVoiceChannelId := none
    allVoiceStates := Except.ok [("g", [("H", some "E")])]
    voiceStatesForChannel := fun _ => Except.ok (some [("H", "H")])
    getChannel := fun _ => ⟨2, 2⟩
    can := fun p _ => p == CONNECT }

/-- A third user x leaves channel E entirely. -/
def eC7 : VoiceEvent := ⟨"x", none, some "E"⟩

/-- C7 witness: the wait-for-space theorem instantiated at the departure of
user x from channel E. -/
theorem C7_witness :
    onVoiceStateUpdates wC7 sH [eC7] = triggerLeashPull wC7 sH (some (some "E")) :=
  C7_wait_for_space_retriggers_pull wC7 sH eC7 "E" [("H", "H")]
    rfl (by decide) (by decide) rfl rfl rfl (by decide) (by decide) rfl
    (by decide) (by decide) (by decide) (by decide)

/-! C8. Without a handler the pull procedure is a complete no-op. -/

/-- C8: with an empty handlerUserId, any invocation of the pull procedure,
with or without an explicit target argument, performs no channel action,
shows no toast, raises no error, and leaves the settings unchanged. -/
theorem C8_noop_without_handler (w : World) (s : Settings) (arg : Option (Option String))
    (h : s.handlerUserId = "") :
    triggerLeashPullStep w s arg = (s, pureOk noEffects) := by
  unfold triggerLeashPullStep triggerLeashPull triggerLeashPullWith
  simp [h]

/-- C8 witness: the no-op theorem instantiated at the default settings. -/
theorem C8_witness :
    triggerLeashPullStep wQuiet defaultSettings none = (defaultSettings, pureOk noEffects) :=
  C8_noop_without_handler wQuiet defaultSettings none rfl

/-! C9. Only the locate-handler query is guarded by a try/catch; the member
query inside the pull procedure is not, so its failure escapes. -/

/-- Host environment where the handler H resolves to channel T but the
member query for any channel fails with a host error. -/
def wC9 : World :=
  { currentUserId := "me"
    selectedVoiceChannelId := none
    allVoiceStates := Except.ok [("g", [("H", some "T")])]
    voiceStatesForChannel := fun _ => Except.error ()
    getChannel := fun _ => ⟨0, 2⟩
    can := fun _ _ => true }

/-- C9 counterexample: a pull invocation in wC9 propagates the host error of
the getVoiceStatesForChannel query instead of degrading to handler-not-
found, refuting the claim that no invocation ever propagates such an
error. -/
theorem C9_counterexample :
    (triggerLeashPull wC9 sH none).2 = Except.error () := rfl

/-- C9 amended: failures of the getAllVoiceStates query inside the
locate-handler-channel query are caught and yield handler-not-found. -/
theorem C9_locate_handler_catches_errors (w : World) (u : String)
    (h : w.allVoiceStates = Except.error ()) :
    getChannelId w u = none := by
  unfold getChannelId
  split
  · rfl
  · rw [h]

/-- Host environment where the getAllVoiceStates query itself fails. -/
def wErr : World := { wQuiet with allVoiceStates := Except.error () }

/-- C9 witness: the catch theorem instantiated at the failing environment. -/
theorem C9_witness : getChannelId wErr "H" = none :=
  C9_locate_handler_catches_errors wErr "H" rfl

/-! C10. A missing member map disables the capacity test entirely. -/

/-- C10: on a permitted target whose member query returns a falsy map, the
capacity test is skipped and the join is performed with a success toast,
even though the user limit is nonzero. -/
theorem C10_missing_member_map_skips_capacity (w : World) (s : Settings) (t : String)
    (hhandler : s.handlerUserId ≠ "") (ht : t ≠ "")
    (hdiff : some t ≠ w.selectedVoiceChannelId)
    (hperm : (w.getChannel t).type = 1 ∨ w.can CONNECT t = true)
    (hvs : w.voiceStatesForChannel t = Except.ok none)
    (_hlimit : (w.getChannel t).userLimit ≠ 0) :
    triggerLeashPullWith w s (some t) =
      pureOk ⟨[ChannelAction.selectVoiceChannel t],
              [⟨ToastMsg.pulledToHandler, ToastType.success⟩]⟩ := by
  unfold triggerLeashPullWith
  rcases hperm with hperm | hperm <;> simp [hhandler, ht, hdiff, hvs, hperm]

/-- Host environment with a one-to-one channel of limit five whose member
query returns a falsy map. -/
def wNoMap : World :=
  { currentUserId := "me"
    selectedVoiceChannelId := none
    allVoiceStates := Except.ok []
    voiceStatesForChannel := fun _ => Except.ok none
    getChannel := fun _ => ⟨1, 5⟩
    can := fun _ _ => false }

/-- C10 witness: the skipped-capacity theorem instantiated at target T. -/
theorem C10_witness :
    triggerLeashPullWith wNoMap sH (some "T") =
      pureOk ⟨[ChannelAction.selectVoiceChannel "T"],
              [⟨ToastMsg.pulledToHandler, ToastType.success⟩]⟩ :=
  C10_missing_member_map_skips_capacity wNoMap sH "T"
    (by decide) (by decide) (by decide) (Or.inl rfl) rfl (by decide)

end LeashYourself
